import Mathlib

/-!
Shallow embedding of the `arunlakshman/arun` repository: a Docusaurus-based
personal site with presentational React components (StatusIndicator, Badge,
TechBadge, TerminalWindow/CodeBlock), a class-name merge utility `cn`, and
two theme-customization components (the mobile blog sidebar override and the
homepage feature grid).  Components are pure functions from props to a markup
tree; class strings are merged by `cn = twMerge ∘ clsx` as in
`src/lib/utils.js`.
-/

/-- Split a character list on a separator, keeping only non-empty pieces;
`cur` accumulates the current piece in reverse. -/
def splitSepAux (sep : Char) : List Char → List Char → List String
  | [], cur => if cur = [] then [] else [String.mk cur.reverse]
  | c :: rest, cur =>
    if c = sep then
      if cur = [] then splitSepAux sep rest []
      else String.mk cur.reverse :: splitSepAux sep rest []
    else splitSepAux sep rest (c :: cur)

/-- Split a string on a separator character, dropping empty pieces. -/
def splitSep (sep : Char) (s : String) : List String :=
  splitSepAux sep s.data []

/-- Whether `p` is an initial segment of `s` (structural, kernel-reducible). -/
def charsLeadWith : List Char → List Char → Bool
  | [], _ => true
  | _ :: _, [] => false
  | p :: ps, c :: cs => p = c && charsLeadWith ps cs

/-- String prefix test on the underlying character lists. -/
def strBeginsWith (s p : String) : Bool :=
  charsLeadWith p.data s.data

/-- Drop the first `n` characters of a string. -/
def strDrop (s : String) (n : Nat) : String :=
  String.mk (s.data.drop n)

/-- An input to `clsx`/`cn`: a plain class string, an object mapping class
names to booleans, or `undefined` (from an omitted optional prop). -/
inductive ClassValue where
  | str (s : String)
  | obj (entries : List (String × Bool))
  | undef
deriving Repr, DecidableEq

/-- Modelled from the spec: the third-party `clsx` library ("conditional
class composition", not part of this repository).  A string input is kept
when truthy (non-empty), an object contributes the keys whose values are
truthy, and `undefined` contributes nothing. -/
def clsxOne : ClassValue → List String
  | ClassValue.str s => if s = "" then [] else [s]
  | ClassValue.obj entries => entries.filterMap (fun e => if e.2 then some e.1 else none)
  | ClassValue.undef => []

/-- Modelled from the spec: `clsx` over a list of inputs joins the kept
pieces with single spaces. -/
def clsx (inputs : List ClassValue) : String :=
  " ".intercalate (inputs.map clsxOne).flatten

/-- Tailwind font-size suffixes, distinguishing `text-xs` (a font-size
class) from `text-green-600` (a text-color class). -/
def fontSizeNames : List String :=
  ["xs", "sm", "base", "lg", "xl", "2xl", "3xl", "4xl", "5xl", "6xl", "7xl", "8xl", "9xl"]

/-- Modelled from the spec: the Tailwind conflict group of an unmodified
utility class, following the third-party `tailwind-merge` library's default
groups, covering every class family the repository's components use
(display, sizing, spacing, margins, colors, typography, borders, rings,
shadows, overflow, and transitions).  Utility classes outside the default
config (such as the site-specific `shadow-glow-green` or `menu__list`)
resolve to `none`, as tailwind-merge leaves unrecognized classes alone, and
are never dropped. -/
def baseGroup (c : String) : Option String :=
  if c = "text-center" ∨ c = "text-left" ∨ c = "text-right" ∨ c = "text-justify" then
    some "text-align"
  else if strBeginsWith c "text-" then
    if fontSizeNames.contains (strDrop c 5) then some "font-size" else some "text-color"
  else if strBeginsWith c "bg-" then some "bg-color"
  else if c = "border" then some "border-w"
  else if c = "border-b" then some "border-w-b"
  else if strBeginsWith c "border-" then some "border-color"
  else if c = "rounded" ∨ strBeginsWith c "rounded-" then some "rounded"
  else if strBeginsWith c "w-" then some "w"
  else if strBeginsWith c "h-" then some "h"
  else if strBeginsWith c "gap-" then some "gap"
  else if strBeginsWith c "px-" then some "px"
  else if strBeginsWith c "py-" then some "py"
  else if strBeginsWith c "p-" then some "p"
  else if c = "transition" ∨ strBeginsWith c "transition-" then some "transition"
  else if strBeginsWith c "font-mono" ∨ strBeginsWith c "font-sans" ∨ strBeginsWith c "font-serif" then
    some "font-family"
  else if strBeginsWith c "font-" then some "font-weight"
  else if c = "flex" ∨ c = "inline-flex" ∨ c = "block" ∨ c = "inline" ∨ c = "grid" ∨ c = "hidden" then
    some "display"
  else if strBeginsWith c "items-" then some "items-align"
  else if c = "shadow" ∨ c = "shadow-sm" ∨ c = "shadow-md" ∨ c = "shadow-lg" ∨
      c = "shadow-xl" ∨ c = "shadow-2xl" ∨ c = "shadow-inner" ∨ c = "shadow-none" then
    some "shadow"
  else if strBeginsWith c "space-y-" then some "space-y"
  else if strBeginsWith c "space-x-" then some "space-x"
  else if strBeginsWith c "overflow-" then some "overflow"
  else if strBeginsWith c "leading-" then some "leading"
  else if c = "flex-1" ∨ c = "flex-auto" ∨ c = "flex-initial" ∨ c = "flex-none" then
    some "flex-sizing"
  else if strBeginsWith c "max-w-" then some "max-w"
  else if strBeginsWith c "mx-" then some "mx"
  else if strBeginsWith c "my-" then some "my"
  else if strBeginsWith c "mt-" then some "mt"
  else if strBeginsWith c "mr-" then some "mr"
  else if strBeginsWith c "mb-" then some "mb"
  else if strBeginsWith c "ml-" then some "ml"
  else if strBeginsWith c "m-" then some "m"
  else if c = "container" then some "container"
  else if strBeginsWith c "grid-cols-" then some "grid-cols"
  else if c = "ring" ∨ c = "ring-0" ∨ c = "ring-1" ∨ c = "ring-2" ∨
      c = "ring-4" ∨ c = "ring-8" then some "ring-w"
  else if c = "ring-offset-0" ∨ c = "ring-offset-1" ∨ c = "ring-offset-2" ∨
      c = "ring-offset-4" ∨ c = "ring-offset-8" then some "ring-offset-w"
  else if strBeginsWith c "ring-offset-" then some "ring-offset-color"
  else if c = "ring-inset" then some "ring-inset"
  else if strBeginsWith c "ring-" then some "ring-color"
  else if c = "outline-none" ∨ c = "outline" ∨ c = "outline-dashed" ∨
      c = "outline-dotted" ∨ c = "outline-double" then some "outline-style"
  else none

/-- The conflict group of a possibly modified class such as
`dark:text-green-400`: modifiers (`dark:`, `hover:`, `focus:`) keep classes
in separate groups from their unmodified counterparts. -/
def twGroup (c : String) : Option String :=
  let parts := splitSep ':' c
  let base := parts.getLast?.getD c
  let mods := parts.dropLast
  (baseGroup base).map (fun g => String.intercalate ":" mods ++ "|" ++ g)

/-- Split a class string on spaces, dropping empty pieces. -/
def splitClasses (s : String) : List String :=
  splitSep ' ' s

/-- Modelled from the spec: the conflict-resolution core of the third-party
`tailwind-merge` library ("Tailwind conflict resolution").  A class is
dropped exactly when a later class in the list belongs to the same conflict
group; later classes win. -/
def twMergeKeep : List String → List String
  | [] => []
  | c :: rest =>
    if (twGroup c).isSome ∧ rest.any (fun d => twGroup d = twGroup c) then
      twMergeKeep rest
    else
      c :: twMergeKeep rest

/-- Modelled from the spec: `twMerge` splits, resolves conflicts keeping the
last class of each group, and rejoins with spaces. -/
def twMerge (s : String) : String :=
  " ".intercalate (twMergeKeep (splitClasses s))

/-- `cn` from `src/lib/utils.js`: merge class inputs with `clsx` and
`tailwind-merge`. -/
def cn (inputs : List ClassValue) : String :=
  twMerge (clsx inputs)

/-- The class list `cn` produces, before rejoining with spaces. -/
def mergedClasses (inputs : List ClassValue) : List String :=
  twMergeKeep (splitClasses (clsx inputs))




/-! ## Markup tree -/

/-- Rendered markup: an element with a tag, a merged class string, other
attributes (including inline styles and link targets), and children, or a
text node.  Docusaurus `Link` elements carry their target in a `"to"`
attribute. -/
inductive Node where
  | text (s : String)
  | el (tag : String) (className : String) (attrs : List (String × String)) (children : List Node)

/-- An omitted optional string prop is JavaScript `undefined`. -/
def ofOpt : Option String → ClassValue
  | none => ClassValue.undef
  | some s => ClassValue.str s

/-- JavaScript truthiness of an optional string: `undefined` and `""` are
falsy, every other string is truthy. -/
def strTruthy : Option String → Bool
  | none => false
  | some s => if s = "" then false else true

/-- The class string of a node (empty for text nodes). -/
def classOf : Node → String
  | Node.text _ => ""
  | Node.el _ c _ _ => c

/-- The children of a node. -/
def childrenOf : Node → List Node
  | Node.text _ => []
  | Node.el _ _ _ cs => cs

/-- The class list of a node. -/
def classListOf (n : Node) : List String :=
  splitClasses (classOf n)

/-! ## StatusIndicator (`src/components/StatusIndicator/index.jsx`) -/

/-- One entry of `statusConfig`: the dot color class and the label text
color classes. -/
structure StatusStyle where
  color : String
  textCls : String

/-- The `statusConfig.online` entry. -/
def onlineStyle : StatusStyle :=
  ⟨"bg-green-500", "text-green-600 dark:text-green-400"⟩

/-- The `statusConfig` literal of StatusIndicator. -/
def statusConfig : List (String × StatusStyle) :=
  [("online", onlineStyle),
   ("offline", ⟨"bg-gray-400", "text-gray-500 dark:text-gray-400"⟩),
   ("warning", ⟨"bg-yellow-500", "text-yellow-600 dark:text-yellow-400"⟩),
   ("error", ⟨"bg-red-500", "text-red-600 dark:text-red-400"⟩)]

/-- Own-key lookup with online fallback: `statusConfig[status] ||
statusConfig.online` restricted to the object's own keys, the behavior on
the four recognized statuses and on every other key an object literal does
not inherit.  Full JavaScript property access, which also hits keys
inherited from `Object.prototype`, is `jsStatusStyle` below. -/
def statusStyleIn (entries : List (String × StatusStyle)) (status : String) : StatusStyle :=
  match entries.lookup status with
  | some cfg => cfg
  | none => onlineStyle

/-- `const config = statusConfig[status] || statusConfig.online`. -/
def statusStyleOf (status : String) : StatusStyle :=
  statusStyleIn statusConfig status

/-- StatusIndicator with the status entries passed explicitly. -/
def StatusIndicatorIn (entries : List (String × StatusStyle))
    (status label className : Option String) : Node :=
  let config := statusStyleIn entries (status.getD "online")
  Node.el "div" (cn [ClassValue.str "flex items-center gap-2", ofOpt className]) []
    (Node.el "div" (cn [ClassValue.str "w-2 h-2 rounded-full", ClassValue.str config.color]) [] []
      :: (if strTruthy label then
            [Node.el "span" (cn [ClassValue.str "text-sm", ClassValue.str config.textCls]) []
               [Node.text (label.getD "")]]
          else []))

/-- `StatusIndicator({ status = "online", label, className })`: a flex row
holding the colored dot and, when `label` is truthy, a label span. -/
def StatusIndicator (status label className : Option String) : Node :=
  StatusIndicatorIn statusConfig status label className

/-- The property names every plain object literal inherits from
`Object.prototype`; accessing `statusConfig[k]` at one of these yields a
truthy inherited function or object, not `undefined`. -/
def objectProtoKeys : List String :=
  ["constructor", "hasOwnProperty", "isPrototypeOf", "propertyIsEnumerable",
   "toLocaleString", "toString", "valueOf", "__proto__",
   "__defineGetter__", "__defineSetter__", "__lookupGetter__", "__lookupSetter__"]

/-- The object selected by `statusConfig[status] || statusConfig.online`
under full JavaScript property access: its `color` and `text` properties
may be `undefined`, when the selected value is an inherited
`Object.prototype` member rather than a status entry. -/
structure JsStyle where
  color : Option String
  textCls : Option String

/-- The `||` fallback when `statusConfig[status]` misses the own keys: a
key inherited from `Object.prototype` is truthy and kept, so its
`color`/`text` properties are `undefined`; any other key is `undefined`
and falls back to the online entry. -/
def jsProtoFallback (status : String) : JsStyle :=
  if status ∈ objectProtoKeys then ⟨none, none⟩
  else ⟨some onlineStyle.color, some onlineStyle.textCls⟩

/-- `const config = statusConfig[status] || statusConfig.online` with the
prototype chain: an own key yields its entry, otherwise `jsProtoFallback`
decides between an inherited truthy member and the online fallback. -/
def jsStatusStyle (entries : List (String × StatusStyle)) (status : String) : JsStyle :=
  match entries.lookup status with
  | some cfg => ⟨some cfg.color, some cfg.textCls⟩
  | none => jsProtoFallback status

/-- StatusIndicator under full JavaScript property-access semantics:
identical to `StatusIndicator` except that `statusConfig[status]` may hit
an inherited `Object.prototype` member, in which case `config.color` and
`config.text` are `undefined` and contribute no class to the render. -/
def StatusIndicatorJs (status label className : Option String) : Node :=
  let config := jsStatusStyle statusConfig (status.getD "online")
  Node.el "div" (cn [ClassValue.str "flex items-center gap-2", ofOpt className]) []
    (Node.el "div" (cn [ClassValue.str "w-2 h-2 rounded-full", ofOpt config.color]) [] []
      :: (if strTruthy label then
            [Node.el "span" (cn [ClassValue.str "text-sm", ofOpt config.textCls]) []
               [Node.text (label.getD "")]]
          else []))

/-- The dot element: the first child of the rendered row. -/
def dotOf (n : Node) : Node :=
  (childrenOf n).headD (Node.text "")

/-- Whether a node is a `span` element. -/
def isSpan : Node → Bool
  | Node.el t _ _ _ => t = "span"
  | Node.text _ => false

/-- The span children of a rendered node. -/
def spansOf (n : Node) : List Node :=
  (childrenOf n).filter isSpan



/-! ## Badge (`src/components/ui/badge.jsx`) and TechBadge -/

/-- The `cva` base classes of `badgeVariants`. -/
def badgeBase : String :=
  "inline-flex items-center rounded-full border px-2.5 py-0.5 text-xs font-semibold transition-colors focus:outline-none focus:ring-2 focus:ring-primary-500 focus:ring-offset-2"

/-- The `cva` variant classes of `badgeVariants`. -/
def badgeVariantClasses : List (String × String) :=
  [("default", "border-transparent bg-primary-600 text-white hover:bg-primary-700"),
   ("secondary", "border-gray-300 bg-gray-100 text-gray-900 hover:bg-gray-200 dark:border-gray-600 dark:bg-gray-800 dark:text-gray-100 dark:hover:bg-gray-700"),
   ("destructive", "border-transparent bg-red-500 text-white hover:bg-red-600"),
   ("outline", "text-gray-700 border-gray-300 hover:bg-gray-100 dark:text-gray-300 dark:border-gray-600 dark:hover:bg-gray-800")]

/-- `badgeVariants({ variant })`: the base classes followed by the classes
of the selected variant; an omitted variant uses the `defaultVariants`
entry `"default"`, an unrecognized variant contributes no variant
classes. -/
def badgeVariants (variant : Option String) : String :=
  match badgeVariantClasses.lookup (variant.getD "default") with
  | some cls => badgeBase ++ " " ++ cls
  | none => badgeBase

/-- `Badge({ className, variant, ...props })`: a div with the variant
classes merged with the caller's className. -/
def Badge (variant className : Option String) (children : List Node) : Node :=
  Node.el "div" (cn [ClassValue.str (badgeVariants variant), ofOpt className]) [] children

/-- `TechBadge({ children, variant = "secondary", className })`: a Badge
with default variant `"secondary"` and base classes
`"text-xs transition-colors"` merged before the caller's className. -/
def TechBadge (variant className : Option String) (children : List Node) : Node :=
  Badge (some (variant.getD "secondary"))
    (some (cn [ClassValue.str "text-xs transition-colors", ofOpt className])) children



/-! ## TerminalWindow / CodeBlock (`src/components/TerminalWindow`) -/

/-- `TerminalWindow({ children, title = "Example", className })`: a bordered
box with a three-dot header showing the title and a monospace content
area. -/
def TerminalWindow (title className : Option String) (children : List Node) : Node :=
  let t := title.getD "Example"
  Node.el "div" (cn [ClassValue.str "rounded-lg overflow-hidden border shadow-sm", ofOpt className])
    [("borderColor", "var(--card-border-color)"),
     ("backgroundColor", "var(--ifm-background-surface-color)")]
    [Node.el "div" "flex items-center gap-2 border-b px-4 py-2"
       [("backgroundColor", "var(--ifm-background-surface-color)"),
        ("borderBottomColor", "var(--card-border-color)")]
       [Node.el "div" "flex gap-1.5" []
          [Node.el "div" "w-3 h-3 rounded-full bg-red-400" [] [],
           Node.el "div" "w-3 h-3 rounded-full bg-yellow-400" [] [],
           Node.el "div" "w-3 h-3 rounded-full bg-green-400" [] []],
        Node.el "div" "flex-1 text-center" []
          [Node.el "span" "text-xs font-medium" [("color", "var(--ifm-font-color-secondary)")]
             [Node.text t]],
        Node.el "div" "w-12" [] []],
     Node.el "div" "p-4 font-mono text-sm"
       [("color", "var(--ifm-font-color-base)"),
        ("backgroundColor", "var(--ifm-background-color)")]
       [Node.el "div" "space-y-1" [] children]]

/-! ## Theme override: mobile blog sidebar (`src/theme/BlogSidebar/Mobile`) -/

/-- A blog sidebar item: a post title and its permalink. -/
structure SidebarItem where
  title : String
  permalink : String

/-- Modelled from the spec: the Docusaurus hook `useVisibleBlogSidebarItems`
(host-framework code, not part of this repository); modelled as a pure
function returning the sidebar items. -/
def useVisibleBlogSidebarItems (items : List SidebarItem) : List SidebarItem :=
  items

/-- Modelled from the spec: the host framework's `BlogSidebarItemList`,
rendering sidebar items as a `ul` of `li` links with the given classes. -/
def BlogSidebarItemList (items : List SidebarItem) : Node :=
  Node.el "ul" "menu__list" []
    (items.map (fun it =>
      Node.el "li" "menu__list-item" []
        [Node.el "Link" "menu__link" [("to", it.permalink)] [Node.text it.title]]))

/-- Modelled from the spec: the host framework's `BlogSidebarContent`,
rendering the items through the supplied list component. -/
def BlogSidebarContent (items : List SidebarItem) : Node :=
  BlogSidebarItemList items

/-- `BlogSidebarMobileSecondaryMenu({ sidebar })`: a fragment holding the
custom navigation list (a Link to `/about`), a divider, and the sidebar
content. -/
def BlogSidebarMobileSecondaryMenu (sidebarItems : List SidebarItem) : Node :=
  let items := useVisibleBlogSidebarItems sidebarItems
  Node.el "fragment" "" []
    [Node.el "ul" "menu__list" []
       [Node.el "li" "menu__list-item" []
          [Node.el "Link" "menu__link" [("to", "/about")] [Node.text "About"]]],
     Node.el "hr" "divider" [] [],
     BlogSidebarContent items]

/-! ## Theme components: homepage features (`HomepageFeatures`) -/

/-- Modelled from the spec: the `ui/card` presentational components (Card,
CardHeader, CardTitle, CardDescription, CardContent), described by the spec
only as presentational components that "accept props and render markup with
merged class names"; modelled as divs forwarding the className and
children. -/
def Card (className : Option String) (children : List Node) : Node :=
  Node.el "div" (cn [ofOpt className]) [] children

/-- Modelled from the spec: see `Card`. -/
def CardHeader (className : Option String) (children : List Node) : Node :=
  Node.el "div" (cn [ofOpt className]) [] children

/-- Modelled from the spec: see `Card`. -/
def CardTitle (className : Option String) (children : List Node) : Node :=
  Node.el "h3" (cn [ofOpt className]) [] children

/-- Modelled from the spec: see `Card`. -/
def CardDescription (className : Option String) (children : List Node) : Node :=
  Node.el "p" (cn [ofOpt className]) [] children

/-- Modelled from the spec: see `Card`. -/
def CardContent (className : Option String) (children : List Node) : Node :=
  Node.el "div" (cn [ofOpt className]) [] children

/-- One entry of the homepage `FeatureList` literal. -/
structure FeatureEntry where
  title : String
  icon : String
  description : Node
  status : String

/-- The `FeatureList` literal of `HomepageFeatures`. -/
def FeatureList : List FeatureEntry :=
  [⟨"Infrastructure as Code", "⚙️",
    Node.text "Comprehensive guides for Kubernetes, Docker, Terraform, and cloud infrastructure. Learn to deploy and manage infrastructure at scale.",
    "online"⟩,
   ⟨"Stream Processing", "⚡",
    Node.text "Master Apache Flink, Kafka, and real-time data processing. Build scalable streaming applications with practical examples and tutorials.",
    "online"⟩,
   ⟨"Developer Tools", "🛠️",
    Node.text "Code examples, best practices, and tutorials. From Java to Python, learn the tools and techniques used by infrastructure engineers.",
    "online"⟩]

/-- `Feature({icon, title, description, status})`: one feature card with an
icon, a title, a StatusIndicator labelled `"ACTIVE"`, and the
description. -/
def Feature (f : FeatureEntry) : Node :=
  Card (some "h-full transition-all hover:shadow-glow-green")
    [CardHeader none
       [Node.el "div" "flex items-center gap-3 mb-2" []
          [Node.el "span" "text-3xl" [] [Node.text f.icon],
           CardTitle (some "font-mono") [Node.text f.title]],
        StatusIndicator (some f.status) (some "ACTIVE") none],
     CardContent none
       [CardDescription (some "leading-relaxed") [f.description]]]

/-- `HomepageFeatures` with the feature entries passed explicitly. -/
def HomepageFeaturesIn (features : List FeatureEntry) : Node :=
  Node.el "section" "py-20" [("backgroundColor", "var(--ifm-background-surface-color)")]
    [Node.el "div" "container mx-auto px-4" []
       [Node.el "div" "text-center mb-12" []
          [Node.el "h2" "text-4xl font-bold mb-4 font-mono" [("color", "var(--terminal-green)")]
             [Node.text "Features"],
           Node.el "p" "font-mono" [("color", "var(--ifm-font-color-secondary)")]
             [Node.text "Everything you need to build and deploy infrastructure"]],
        Node.el "div" "grid md:grid-cols-3 gap-6 max-w-6xl mx-auto" [] (features.map Feature)]]

/-- `HomepageFeatures()`: the feature grid section rendered from the
`FeatureList` literal. -/
def HomepageFeatures : Node :=
  HomepageFeaturesIn FeatureList

/-! ## About page (`src/pages/about.js`) -/

/-- One entry of the About page's `socialLinks` literal; the inline SVG icon
markup is summarized by its accessible name. -/
structure SocialLink where
  name : String
  url : String

/-- The `socialLinks` literal of the About page. -/
def socialLinks : List SocialLink :=
  [⟨"GitHub", "https://github.com/arunlakshman"⟩,
   ⟨"LinkedIn", "https://www.linkedin.com/in/arun-laksh/"⟩,
   ⟨"X / Twitter", "https://twitter.com/arun_lakshman"⟩]

/-- The social-links section of the About page, rendered from an explicit
link list: each entry becomes an anchor with its icon and name. -/
def aboutSocialSectionIn (links : List SocialLink) : Node :=
  Node.el "div" "about-social-links" []
    (links.map (fun link =>
      Node.el "a" "about-social-link" [("href", link.url), ("title", link.name)]
        [Node.el "svg" "" [] [], Node.el "span" "" [] [Node.text link.name]]))

/-- The About page's social-links section rendered from the `socialLinks`
literal. -/
def aboutSocialSection : Node :=
  aboutSocialSectionIn socialLinks

/-! ## Link detection -/

mutual
/-- Whether a markup tree contains a navigation link (an anchor or a
Docusaurus `Link` element). -/
def containsLink : Node → Bool
  | Node.text _ => false
  | Node.el t _ _ cs => t = "a" || t = "Link" || containsLinkList cs

/-- Whether any tree in a list contains a navigation link. -/
def containsLinkList : List Node → Bool
  | [] => false
  | n :: ns => containsLink n || containsLinkList ns
end

/-! ## Explicit state passing for the display-configuration literals -/

/-- The display-configuration literals named by the spec: the
status-to-color map, the homepage feature list, and the About page's
social-link list. -/
structure DisplayConfigs where
  statusEntries : List (String × StatusStyle)
  features : List FeatureEntry
  socials : List SocialLink

/-- The literals as the source declares them. -/
def initialConfigs : DisplayConfigs :=
  ⟨statusConfig, FeatureList, socialLinks⟩

/-- Rendering StatusIndicator with the configuration state passed
explicitly: the render reads the status entries and returns the state it
was given; the source has no assignment to `statusConfig`. -/
def statusIndicatorStep (cfgs : DisplayConfigs) (status label className : Option String) :
    Node × DisplayConfigs :=
  (StatusIndicatorIn cfgs.statusEntries status label className, cfgs)

/-- Rendering HomepageFeatures with the configuration state passed
explicitly. -/
def homepageFeaturesStep (cfgs : DisplayConfigs) : Node × DisplayConfigs :=
  (HomepageFeaturesIn cfgs.features, cfgs)

/-- Rendering the About page's social section with the configuration state
passed explicitly. -/
def aboutSocialStep (cfgs : DisplayConfigs) : Node × DisplayConfigs :=
  (aboutSocialSectionIn cfgs.socials, cfgs)

/-! ## Theorems -/

/-- The dot element of a rendered StatusIndicator depends only on the
status prop. -/
theorem dotOf_statusIndicator (status label className : Option String) :
    dotOf (StatusIndicator status label className)
      = Node.el "div" (cn [ClassValue.str "w-2 h-2 rounded-full",
          ClassValue.str (statusStyleOf (status.getD "online")).color]) [] [] :=
  rfl

/-- The class list of a Badge depends only on the variant and className
props. -/
theorem classListOf_Badge (variant className : Option String) (children : List Node) :
    classListOf (Badge variant className children)
      = splitClasses (cn [ClassValue.str (badgeVariants variant), ofOpt className]) :=
  rfl

/-- C1: for every recognized status value, the rendered StatusIndicator's
dot element carries the corresponding color class: `bg-green-500` for
`online`, `bg-gray-400` for `offline`, `bg-yellow-500` for `warning`, and
`bg-red-500` for `error`, whatever the label and className props are. -/
theorem statusIndicator_dot_color (label className : Option String) :
    "bg-green-500" ∈ classListOf (dotOf (StatusIndicator (some "online") label className)) ∧
    "bg-gray-400" ∈ classListOf (dotOf (StatusIndicator (some "offline") label className)) ∧
    "bg-yellow-500" ∈ classListOf (dotOf (StatusIndicator (some "warning") label className)) ∧
    "bg-red-500" ∈ classListOf (dotOf (StatusIndicator (some "error") label className)) := by
  refine ⟨?_, ?_, ?_, ?_⟩ <;> rw [dotOf_statusIndicator] <;> decide

/-- C3: `cn` is exactly Tailwind conflict resolution applied to the
conditional class composition of its inputs, with no other
transformation. -/
theorem cn_eq_twMerge_clsx (inputs : List ClassValue) :
    cn inputs = twMerge (clsx inputs) :=
  rfl

/-- C6: each omitted prop falls back to its declared default, and omitting
the prop renders exactly as passing the default explicitly: StatusIndicator
defaults `status` to `"online"`, TerminalWindow defaults `title` to
`"Example"`, and TechBadge defaults `variant` to `"secondary"`. -/
theorem default_prop_fallbacks :
    (∀ label className : Option String,
      StatusIndicator none label className = StatusIndicator (some "online") label className) ∧
    (∀ (className : Option String) (children : List Node),
      TerminalWindow none className children = TerminalWindow (some "Example") className children) ∧
    (∀ (className : Option String) (children : List Node),
      TechBadge none className children = TechBadge (some "secondary") className children) := by
  refine ⟨?_, ?_, ?_⟩ <;> intros <;> rfl

/-- C7: with the render translated to explicit state passing over the
display-configuration literals (the status-to-color map, the homepage
feature list, and the social-link list), every render returns the
configuration state unchanged, and rendering from the literals agrees with
the plain renders. -/
theorem display_configs_immutable :
    (∀ (cfgs : DisplayConfigs) (status label className : Option String),
      (statusIndicatorStep cfgs status label className).2 = cfgs) ∧
    (∀ cfgs : DisplayConfigs, (homepageFeaturesStep cfgs).2 = cfgs) ∧
    (∀ cfgs : DisplayConfigs, (aboutSocialStep cfgs).2 = cfgs) ∧
    (∀ status label className : Option String,
      (statusIndicatorStep initialConfigs status label className).1
        = StatusIndicator status label className) ∧
    (homepageFeaturesStep initialConfigs).1 = HomepageFeatures ∧
    (aboutSocialStep initialConfigs).1 = aboutSocialSection :=
  ⟨fun _ _ _ _ => rfl, fun _ => rfl, fun _ => rfl, fun _ _ _ => rfl, rfl, rfl⟩

/-- C10: Badge's own default variant is `"default"`, whose classes include
`bg-primary-600`, while TechBadge overrides the omitted variant to
`"secondary"`: with no variant prop, TechBadge renders the secondary
variant classes (including `bg-gray-100`) and not `bg-primary-600`, so the
two components disagree on the default appearance. -/
theorem badge_techBadge_default_disagreement (children : List Node) :
    badgeVariants none = badgeVariants (some "default") ∧
    "bg-primary-600" ∈ classListOf (Badge none none children) ∧
    TechBadge none none children
      = Badge (some "secondary") (some (cn [ClassValue.str "text-xs transition-colors", ClassValue.undef])) children ∧
    "bg-gray-100" ∈ classListOf (TechBadge none none children) ∧
    "bg-primary-600" ∉ classListOf (TechBadge none none children) := by
  refine ⟨rfl, ?_, rfl, ?_, ?_⟩
  · rw [classListOf_Badge]
    decide
  all_goals
    rw [show (TechBadge none none children : Node)
        = Badge (some "secondary")
            (some (cn [ClassValue.str "text-xs transition-colors", ClassValue.undef])) children
        from rfl, classListOf_Badge]
    decide

/-- A status string outside the four recognized keys has no entry in
`statusConfig`. -/
theorem statusConfig_lookup_eq_none (status : String)
    (h1 : status ≠ "online") (h2 : status ≠ "offline")
    (h3 : status ≠ "warning") (h4 : status ≠ "error") :
    statusConfig.lookup status = none := by
  have b1 : (status == "online") = false := beq_eq_false_iff_ne.mpr h1
  have b2 : (status == "offline") = false := beq_eq_false_iff_ne.mpr h2
  have b3 : (status == "warning") = false := beq_eq_false_iff_ne.mpr h3
  have b4 : (status == "error") = false := beq_eq_false_iff_ne.mpr h4
  simp [statusConfig, List.lookup, b1, b2, b3, b4]

/-- Off the inherited `Object.prototype` keys, the full property-access
semantics agrees with the own-key lookup render. -/
theorem statusIndicatorJs_eq_plain (status : String) (label className : Option String)
    (hproto : status ∉ objectProtoKeys) :
    StatusIndicatorJs (some status) label className
      = StatusIndicator (some status) label className := by
  unfold StatusIndicatorJs StatusIndicator StatusIndicatorIn jsStatusStyle statusStyleIn
  rw [Option.getD_some]
  cases statusConfig.lookup status with
  | some cfg => rfl
  | none =>
    unfold jsProtoFallback
    rw [if_neg hproto]
    rfl

/-- C2 counterexample: at status `"toString"` the source does not fall back
to the default display style: `statusConfig["toString"]` is a truthy
property inherited from `Object.prototype`, so `config.color` is
`undefined` and the dot renders without the online color class
`bg-green-500`. -/
theorem statusIndicator_toString_no_fallback :
    classListOf (dotOf (StatusIndicatorJs (some "toString") none none))
      = ["w-2", "h-2", "rounded-full"] ∧
    classListOf (dotOf (StatusIndicatorJs (some "online") none none))
      = ["w-2", "h-2", "rounded-full", "bg-green-500"] ∧
    classListOf (dotOf (StatusIndicatorJs (some "toString") none none))
      ≠ classListOf (dotOf (StatusIndicatorJs (some "online") none none)) := by
  refine ⟨?_, ?_, ?_⟩ <;> decide

/-- C2 amended: every status string that is neither one of the four
recognized values nor a property name inherited from `Object.prototype`
falls back to the default display style: the render is identical to the
one for status `"online"`, for every label and className. -/
theorem statusIndicatorJs_unrecognized_falls_back (status : String) (label className : Option String)
    (h1 : status ≠ "online") (h2 : status ≠ "offline")
    (h3 : status ≠ "warning") (h4 : status ≠ "error")
    (hproto : status ∉ objectProtoKeys) :
    StatusIndicatorJs (some status) label className
      = StatusIndicatorJs (some "online") label className := by
  have hs : jsStatusStyle statusConfig status
      = ⟨some onlineStyle.color, some onlineStyle.textCls⟩ := by
    unfold jsStatusStyle
    rw [statusConfig_lookup_eq_none status h1 h2 h3 h4]
    show jsProtoFallback status = _
    unfold jsProtoFallback
    rw [if_neg hproto]
  have ho : jsStatusStyle statusConfig "online"
      = ⟨some onlineStyle.color, some onlineStyle.textCls⟩ := rfl
  unfold StatusIndicatorJs
  rw [Option.getD_some, Option.getD_some, hs, ho]

/-- Witness for amended C2 at the concrete unrecognized, non-inherited
status `"booting"`. -/
theorem statusIndicatorJs_unrecognized_falls_back_witness :
    StatusIndicatorJs (some "booting") (some "UP") none
      = StatusIndicatorJs (some "online") (some "UP") none :=
  statusIndicatorJs_unrecognized_falls_back "booting" (some "UP") none
    (by decide) (by decide) (by decide) (by decide) (by decide)

/-- C4: every component of the repository is deterministic in its props:
renders with equal props produce identical markup.  Each component is
embedded as a pure function of its props, so no render reads or writes
state outside them. -/
theorem components_deterministic :
    (∀ s₁ l₁ c₁ s₂ l₂ c₂ : Option String, s₁ = s₂ → l₁ = l₂ → c₁ = c₂ →
      StatusIndicator s₁ l₁ c₁ = StatusIndicator s₂ l₂ c₂) ∧
    (∀ (v₁ c₁ : Option String) (ch₁ : List Node) (v₂ c₂ : Option String) (ch₂ : List Node),
      v₁ = v₂ → c₁ = c₂ → ch₁ = ch₂ → Badge v₁ c₁ ch₁ = Badge v₂ c₂ ch₂) ∧
    (∀ (v₁ c₁ : Option String) (ch₁ : List Node) (v₂ c₂ : Option String) (ch₂ : List Node),
      v₁ = v₂ → c₁ = c₂ → ch₁ = ch₂ → TechBadge v₁ c₁ ch₁ = TechBadge v₂ c₂ ch₂) ∧
    (∀ (t₁ c₁ : Option String) (ch₁ : List Node) (t₂ c₂ : Option String) (ch₂ : List Node),
      t₁ = t₂ → c₁ = c₂ → ch₁ = ch₂ → TerminalWindow t₁ c₁ ch₁ = TerminalWindow t₂ c₂ ch₂) ∧
    (∀ i₁ i₂ : List SidebarItem, i₁ = i₂ →
      BlogSidebarMobileSecondaryMenu i₁ = BlogSidebarMobileSecondaryMenu i₂) ∧
    (∀ f₁ f₂ : List FeatureEntry, f₁ = f₂ → HomepageFeaturesIn f₁ = HomepageFeaturesIn f₂) := by
  refine ⟨?_, ?_, ?_, ?_, ?_, ?_⟩ <;> intros <;> subst_vars <;> rfl

/-- Witness for C4: each determinism conjunct applied at concrete props. -/
theorem components_deterministic_witness :
    StatusIndicator (some "online") (some "UP") none
      = StatusIndicator (some "online") (some "UP") none ∧
    Badge none none [] = Badge none none [] ∧
    TechBadge none none [] = TechBadge none none [] ∧
    TerminalWindow none none [] = TerminalWindow none none [] ∧
    BlogSidebarMobileSecondaryMenu [] = BlogSidebarMobileSecondaryMenu [] ∧
    HomepageFeaturesIn FeatureList = HomepageFeaturesIn FeatureList :=
  ⟨components_deterministic.1 (some "online") (some "UP") none (some "online") (some "UP") none
      rfl rfl rfl,
   components_deterministic.2.1 none none [] none none [] rfl rfl rfl,
   components_deterministic.2.2.1 none none [] none none [] rfl rfl rfl,
   components_deterministic.2.2.2.1 none none [] none none [] rfl rfl rfl,
   components_deterministic.2.2.2.2.1 [] [] rfl,
   components_deterministic.2.2.2.2.2 FeatureList FeatureList rfl⟩

/-- C8: StatusIndicator renders the label span only for a truthy label: an
omitted or empty label yields only the dot, and a non-empty label yields
exactly one span holding that label text. -/
theorem statusIndicator_label_spans (status className : Option String) :
    childrenOf (StatusIndicator status none className)
      = [dotOf (StatusIndicator status none className)] ∧
    childrenOf (StatusIndicator status (some "") className)
      = [dotOf (StatusIndicator status (some "") className)] ∧
    (∀ l : String, l ≠ "" →
      spansOf (StatusIndicator status (some l) className)
        = [Node.el "span"
             (cn [ClassValue.str "text-sm",
                  ClassValue.str (statusStyleOf (status.getD "online")).textCls]) []
             [Node.text l]]) := by
  refine ⟨rfl, rfl, ?_⟩
  intro l hl
  unfold StatusIndicator StatusIndicatorIn spansOf
  rw [show strTruthy (some l) = true from by simp [strTruthy, hl]]
  simp [childrenOf, isSpan, statusStyleOf]

/-- Witness for C8 at the non-empty label `"DEGRADED"`. -/
theorem statusIndicator_label_spans_witness :
    spansOf (StatusIndicator (some "warning") (some "DEGRADED") none)
      = [Node.el "span"
           (cn [ClassValue.str "text-sm",
                ClassValue.str (statusStyleOf "warning").textCls]) []
           [Node.text "DEGRADED"]] :=
  (statusIndicator_label_spans (some "warning") none).2.2 "DEGRADED" (by decide)

/-- C5 counterexample: the homepage feature grid component renders no
navigation link anywhere in its markup, so it does not inject a custom
navigation link into the homepage feature grid. -/
theorem homepageFeatures_contains_no_link :
    containsLink HomepageFeatures = false := by
  decide

/-- C5 amended: the mobile blog sidebar override injects a custom
navigation link to `/about` rendered before the sidebar content, while the
homepage feature grid component renders the feature cards without injecting
any navigation link. -/
theorem theme_navigation_links (items : List SidebarItem) :
    childrenOf (BlogSidebarMobileSecondaryMenu items)
      = [Node.el "ul" "menu__list" []
           [Node.el "li" "menu__list-item" []
              [Node.el "Link" "menu__link" [("to", "/about")] [Node.text "About"]]],
         Node.el "hr" "divider" [] [],
         BlogSidebarContent items] ∧
    containsLink
      (Node.el "ul" "menu__list" []
        [Node.el "li" "menu__list-item" []
           [Node.el "Link" "menu__link" [("to", "/about")] [Node.text "About"]]]) = true ∧
    containsLink HomepageFeatures = false := by
  refine ⟨rfl, ?_, ?_⟩ <;> decide

/-- Conflict resolution only keeps classes of the original list. -/
theorem twMergeKeep_subset (l : List String) : ∀ x ∈ twMergeKeep l, x ∈ l := by
  induction l with
  | nil => intro x hx; exact absurd hx (List.not_mem_nil x)
  | cons a l ih =>
    unfold twMergeKeep
    split
    · intro x hx
      exact List.mem_cons_of_mem a (ih x hx)
    · intro x hx
      rcases List.mem_cons.mp hx with h | h
      · exact h ▸ List.mem_cons_self a l
      · exact List.mem_cons_of_mem a (ih x h)

/-- A class survives conflict resolution when no later class conflicts
with it. -/
theorem mem_twMergeKeep_of_no_later_conflict (bs as : List String) (c : String)
    (has : ∀ d ∈ as, twGroup d ≠ twGroup c) :
    c ∈ twMergeKeep (bs ++ c :: as) := by
  induction bs with
  | nil =>
    rw [List.nil_append]
    unfold twMergeKeep
    split
    · next h =>
      rcases List.any_eq_true.mp h.2 with ⟨d, hd, hdec⟩
      exact absurd (of_decide_eq_true hdec) (has d hd)
    · exact List.mem_cons_self c _
  | cons x bs ih =>
    rw [List.cons_append]
    unfold twMergeKeep
    split
    · exact ih
    · exact List.mem_cons_of_mem x ih

/-- A class that conflicts with a later class of the list and does not
reappear after it is always dropped by conflict resolution. -/
theorem not_mem_twMergeKeep_of_conflict (bs as : List String) (b c : String)
    (hg : twGroup b = twGroup c) (hs : (twGroup b).isSome) (hbc : b ≠ c)
    (hbas : b ∉ as) :
    b ∉ twMergeKeep (bs ++ c :: as) := by
  induction bs with
  | nil =>
    rw [List.nil_append]
    intro hmem
    rcases List.mem_cons.mp (twMergeKeep_subset (c :: as) b hmem) with h | h
    · exact hbc h
    · exact hbas h
  | cons x bs ih =>
    rw [List.cons_append]
    unfold twMergeKeep
    split
    · exact ih
    · next hkeep =>
      intro hmem
      rcases List.mem_cons.mp hmem with h | h
      · subst h
        exact hkeep ⟨hs, List.any_eq_true.mpr
          ⟨c, List.mem_append_right bs (List.mem_cons_self c as), decide_eq_true hg.symm⟩⟩
      · exact ih h

/-- C9: a caller-supplied className wins Tailwind conflicts over a
component's base classes: whenever the composed inputs split into classes
`bs` followed by the caller's classes `c :: as`, a base class `b` of `bs`
is in the same conflict group as the caller class `c`, no later caller
class conflicts with `c`, and `b` does not reappear among the later caller
classes, the merged class list keeps `c` and drops `b`, and `cn` returns
exactly that list joined with spaces. -/
theorem cn_caller_class_wins (base caller : String) (bs as : List String) (b c : String)
    (hsplit : splitClasses (clsx [ClassValue.str base, ClassValue.str caller]) = bs ++ c :: as)
    (_hb : b ∈ bs)
    (hg : twGroup b = twGroup c) (hs : (twGroup b).isSome) (hbc : b ≠ c)
    (has : ∀ d ∈ as, twGroup d ≠ twGroup c) (hbas : b ∉ as) :
    c ∈ mergedClasses [ClassValue.str base, ClassValue.str caller] ∧
    b ∉ mergedClasses [ClassValue.str base, ClassValue.str caller] ∧
    cn [ClassValue.str base, ClassValue.str caller]
      = " ".intercalate (mergedClasses [ClassValue.str base, ClassValue.str caller]) := by
  unfold mergedClasses cn twMerge
  rw [hsplit]
  exact ⟨mem_twMergeKeep_of_no_later_conflict bs as c has,
         not_mem_twMergeKeep_of_conflict bs as b c hg hs hbc hbas, rfl⟩

/-- Witness for C9: first with TechBadge's base classes
`"text-xs transition-colors"` against the multi-class caller
`"text-sm font-bold"` (the conflicting caller class is not the final
token), then with TerminalWindow's base classes against the caller
`"shadow-lg"`, which conflicts with the base `shadow-sm`. -/
theorem cn_caller_class_wins_witness :
    ("text-sm" ∈ mergedClasses
       [ClassValue.str "text-xs transition-colors", ClassValue.str "text-sm font-bold"] ∧
     "text-xs" ∉ mergedClasses
       [ClassValue.str "text-xs transition-colors", ClassValue.str "text-sm font-bold"] ∧
     cn [ClassValue.str "text-xs transition-colors", ClassValue.str "text-sm font-bold"]
       = " ".intercalate (mergedClasses
           [ClassValue.str "text-xs transition-colors", ClassValue.str "text-sm font-bold"])) ∧
    ("shadow-lg" ∈ mergedClasses
       [ClassValue.str "rounded-lg overflow-hidden border shadow-sm", ClassValue.str "shadow-lg"] ∧
     "shadow-sm" ∉ mergedClasses
       [ClassValue.str "rounded-lg overflow-hidden border shadow-sm", ClassValue.str "shadow-lg"] ∧
     cn [ClassValue.str "rounded-lg overflow-hidden border shadow-sm", ClassValue.str "shadow-lg"]
       = " ".intercalate (mergedClasses
           [ClassValue.str "rounded-lg overflow-hidden border shadow-sm",
            ClassValue.str "shadow-lg"])) :=
  ⟨cn_caller_class_wins "text-xs transition-colors" "text-sm font-bold"
     ["text-xs", "transition-colors"] ["font-bold"] "text-xs" "text-sm"
     (by decide) (by decide) (by decide) (by decide) (by decide) (by decide) (by decide),
   cn_caller_class_wins "rounded-lg overflow-hidden border shadow-sm" "shadow-lg"
     ["rounded-lg", "overflow-hidden", "border", "shadow-sm"] [] "shadow-sm" "shadow-lg"
     (by decide) (by decide) (by decide) (by decide) (by decide) (by decide) (by decide)⟩
